import Mathlib

/-
Verification development for the finance news scraper:
a shallow embedding of the crawl-frontier planner (news_scraper/spiders/base.py),
the SQLite-backed article store (news_scraper/database.py) and the request-level
URL dedup filter (news_scraper/middlewares.py), together with theorems settling
the behavioural claims about them.
-/

namespace NewsScraper

/-! ## Calendar dates

Dates model `pandas.Timestamp` values normalized to midnight (base.py uses
`pd.Timestamp(..).normalize()`), so only the year/month/day components remain.
-/

/-- A calendar date: a `pd.Timestamp` normalized to midnight. -/
structure Date where
  y : Nat
  m : Nat
  d : Nat
deriving DecidableEq

/-- Gregorian leap-year test, as used by pandas date arithmetic. -/
def isLeapYear (y : Nat) : Bool :=
  y % 4 == 0 && (y % 100 != 0 || y % 400 == 0)

/-- Number of days in a month of the Gregorian calendar. -/
def daysInMonth (y m : Nat) : Nat :=
  if m == 2 then (if isLeapYear y then 29 else 28)
  else if m == 4 || m == 6 || m == 9 || m == 11 then 30
  else 31

/-- `pd.DateOffset(days=1)`: advance one calendar day. -/
def addDay (dt : Date) : Date :=
  if dt.d < daysInMonth dt.y dt.m then ⟨dt.y, dt.m, dt.d + 1⟩
  else if dt.m < 12 then ⟨dt.y, dt.m + 1, 1⟩
  else ⟨dt.y + 1, 1, 1⟩

/-- `pd.DateOffset(months=1)`: advance one month, clamping the day to the
length of the target month (pandas DateOffset behaviour). -/
def addMonth (dt : Date) : Date :=
  if dt.m < 12 then ⟨dt.y, dt.m + 1, min dt.d (daysInMonth dt.y (dt.m + 1))⟩
  else ⟨dt.y + 1, 1, min dt.d (daysInMonth (dt.y + 1) 1)⟩

/-- `pd.DateOffset(years=1)`: advance one year, clamping the day
(Feb 29 of a leap year maps to Feb 28). -/
def addYear (dt : Date) : Date :=
  ⟨dt.y + 1, dt.m, min dt.d (daysInMonth (dt.y + 1) dt.m)⟩

/-- The `sitemap_type` of a `SitemapIndexSpider` (base.py:13):
one of "daily", "monthly", "yearly".  Any other literal value raises
`NotImplementedError` before any partition is produced (base.py:56-57),
so the embedding only carries the three recognized cadences. -/
inductive Cadence
  | daily
  | monthly
  | yearly
deriving DecidableEq

/-- The `sitemap_frequency` step selected at base.py:50-57. -/
def nextDate : Cadence → Date → Date
  | Cadence.daily, dt => addDay dt
  | Cadence.monthly, dt => addMonth dt
  | Cadence.yearly, dt => addYear dt

/-- Timestamp comparison (lexicographic on year, month, day), non-strict. -/
def dateLe (a b : Date) : Prop :=
  a.y < b.y ∨ (a.y = b.y ∧ (a.m < b.m ∨ (a.m = b.m ∧ a.d ≤ b.d)))

instance (a b : Date) : Decidable (dateLe a b) :=
  inferInstanceAs (Decidable (a.y < b.y ∨ (a.y = b.y ∧ (a.m < b.m ∨ (a.m = b.m ∧ a.d ≤ b.d)))))

/-- Timestamp comparison (lexicographic on year, month, day), strict. -/
def dateLt (a b : Date) : Prop :=
  a.y < b.y ∨ (a.y = b.y ∧ (a.m < b.m ∨ (a.m = b.m ∧ a.d < b.d)))

instance (a b : Date) : Decidable (dateLt a b) :=
  inferInstanceAs (Decidable (a.y < b.y ∨ (a.y = b.y ∧ (a.m < b.m ∨ (a.m = b.m ∧ a.d < b.d)))))

/-- Python `max` of two timestamps (`max(latest_date, date_range[0])`, base.py:82). -/
def maxDate (a b : Date) : Date := if dateLt a b then b else a

/-- Fuel bound for the date-range enumeration.  Each cadence step advances the
date by at least one calendar day, so for calendar dates the number of steps
from `s` to `e` is below `366 * (e.y + 2 - s.y) + 40`; with this fuel the
enumeration never truncates and agrees with `pd.date_range`. -/
def dateFuel (s e : Date) : Nat := 366 * (e.y + 2 - s.y) + 40

/-- Ascending enumeration underlying `pd.date_range(start, end, freq)`:
emit `cur`, `cur + freq`, ... while the date is at most `end`; empty when
`start` is past `end` (pandas returns an empty index then). -/
def dateRangeAscAux : Nat → Cadence → Date → Date → List Date
  | 0, _, _, _ => []
  | fuel + 1, c, cur, stop =>
    if dateLe cur stop then cur :: dateRangeAscAux fuel c (nextDate c cur) stop else []

/-- The sitemap partition dates of a run (base.py:93-97):
`pd.date_range(start=date_range[0].normalize(), end=date_range[1].normalize(),
freq=sitemap_frequency)[::-1]` — the ascending cadence steps from the window
start through the window end, reversed into descending order. -/
def sitemapDates (c : Cadence) (s e : Date) : List Date :=
  (dateRangeAscAux (dateFuel s e) c s e).reverse

/-! ## Strings

SQLite compares `TEXT` values bytewise (BINARY collation); for the ASCII
ISO-date strings stored in `date_published` this is the code-point order
implemented here on the underlying character lists. -/

/-- Bytewise (code-point) string order on character lists, as SQLite's BINARY
collation compares `TEXT` values. -/
def charListLe : List Char → List Char → Bool
  | [], _ => true
  | _ :: _, [] => false
  | a :: as, b :: bs =>
    if a.toNat = b.toNat then charListLe as bs else decide (a.toNat < b.toNat)

/-- SQLite `TEXT` comparison `a <= b` under the default BINARY collation. -/
def strLe (a b : String) : Bool := charListLe a.data b.data

/-- Python `max` of two `TEXT` dates under SQLite ordering. -/
def strMax (a b : String) : String := if strLe a b then b else a

/-- ASCII lowercasing of one character, the folding SQLite's `LIKE` applies
(case-insensitive for ASCII only). -/
def asciiLower (c : Char) : Char :=
  if 65 ≤ c.toNat ∧ c.toNat ≤ 90 then Char.ofNat (c.toNat + 32) else c

/-- ASCII-lowercased character list of a string. -/
def lowerAscii (s : String) : List Char := s.data.map asciiLower

/-- Contiguous-sublist test: does `pat` occur inside the first list?
Ingredient of the spec-side substring reading `specSubstringMatch`. -/
def containsSub : List Char → List Char → Bool
  | [], pat => pat.isEmpty
  | h :: t, pat => pat.isPrefixOf (h :: t) || containsSub t pat

/-- SQLite `LIKE` pattern matching (default behaviour, no `ESCAPE` clause):
`%` matches any sequence of characters, `_` matches exactly one character,
and any other pattern character matches itself case-insensitively (ASCII
folding, as SQLite's default `LIKE`).  `fuel` bounds the recursion depth:
every recursive call strictly decreases `pat.length + s.length`, so the
`pat.length + s.length + 1` supplied by `sqlLike` never runs out and the
function computes exactly the LIKE relation. -/
def likeMatchAux : Nat → List Char → List Char → Bool
  | 0, _, _ => false
  | _ + 1, [], s => s.isEmpty
  | fuel + 1, p :: ps, s =>
    if p = '%' then
      likeMatchAux fuel ps s ||
        (match s with
         | [] => false
         | _ :: t => likeMatchAux fuel (p :: ps) t)
    else
      match s with
      | [] => false
      | c :: t =>
        if p = '_' then likeMatchAux fuel ps t
        else asciiLower p == asciiLower c && likeMatchAux fuel ps t

/-- SQLite `s LIKE pattern` under the default case-insensitive (ASCII)
collation of `LIKE`. -/
def sqlLike (pattern s : String) : Bool :=
  likeMatchAux (pattern.data.length + s.data.length + 1) pattern.data s.data

/-- `column LIKE ?` with the bound parameter built at database.py:97 as
the f-string `"%" + search_query + "%"`, so `%` and `_` inside the query
act as LIKE wildcards.  On a nullable column, `NULL LIKE p` evaluates to
NULL, which is falsy in the surrounding `OR`/`WHERE`. -/
def likeOpt (q : String) : Option String → Bool
  | none => false
  | some s => sqlLike ("%" ++ q ++ "%") s

/-- Modelled from the spec's words, for comparison with the code's
`sqlLike`-based filter (spec.md section 4.1: "case-insensitive substring
match across title, description, and full text"): plain substring
containment after ASCII lowercasing.  The code's `LIKE '%q%'` diverges from
this reading whenever the query itself contains `%` or `_`. -/
def specSubstringMatch (q s : String) : Bool :=
  containsSub (lowerAscii s) (lowerAscii q)

/-! ## The article store (news_scraper/database.py)

A stored row of the `articles` table.  The surrogate `id` and the
`created_at` default timestamp are supplied by the engine and play no role in
any claim, so they are not carried. -/

/-- One row of the `articles` table (database.py:24-40).  `url` is
`TEXT UNIQUE NOT NULL`; every other modelled column is nullable. -/
structure Row where
  url : String
  title : Option String := none
  description : Option String := none
  author : Option String := none
  article_text : Option String := none
  date_published : Option String := none
  date_modified : Option String := none
  scrapy_scraped_at : Option String := none
  scrapy_parsed_at : Option String := none
  paywall : Option String := none
  spider_name : String
deriving DecidableEq

/-- An incoming article dict handed to `insert_article`; every key is read
with `article.get(...)`, so each field may be absent (`none`). -/
structure Article where
  url : Option String := none
  title : Option String := none
  description : Option String := none
  author : Option String := none
  article_text : Option String := none
  date_published : Option String := none
  date_modified : Option String := none
  scrapy_scraped_at : Option String := none
  scrapy_parsed_at : Option String := none
  paywall : Option String := none
deriving DecidableEq

/-- `NewsDatabase.insert_article` (database.py:50-76): an
`INSERT OR IGNORE INTO articles ... VALUES (...)` keyed on the `UNIQUE NOT
NULL` column `url`, returning `cursor.rowcount > 0`.
`OR IGNORE` silently skips the row both when `article.get('url')` is `NULL`
(NOT NULL violation) and when a row with the same url already exists (UNIQUE
violation); in both cases no row is written and the call returns `False`.
Storage faults are caught and also reported as `False` (lines 74-76), never
raised; they are not modelled here. -/
def insert_article (store : List Row) (article : Article) (spider_name : String) :
    List Row × Bool :=
  match article.url with
  | none => (store, false)
  | some u =>
    if store.any (fun r => r.url == u) then (store, false)
    else
      (store ++ [{ url := u, title := article.title, description := article.description,
                   author := article.author, article_text := article.article_text,
                   date_published := article.date_published,
                   date_modified := article.date_modified,
                   scrapy_scraped_at := article.scrapy_scraped_at,
                   scrapy_parsed_at := article.scrapy_parsed_at,
                   paywall := article.paywall, spider_name := spider_name }], true)

/-- The `spider_name` filter of `get_articles` (database.py:91-93).  Python
`if spider_name:` is false for `None` and for the empty string, so the
condition `spider_name = ?` is added only for a non-empty value. -/
def matchSpider : Option String → Row → Bool
  | some n, r => if n.isEmpty then true else r.spider_name == n
  | none, _ => true

/-- The text filter of `get_articles` (database.py:95-98):
`(title LIKE '%q%' OR description LIKE '%q%' OR article_text LIKE '%q%')`,
added only for a truthy (non-empty) `search_query`; any `%` or `_` inside
the query acts as a LIKE wildcard (see `likeOpt`). -/
def matchText : Option String → Row → Bool
  | some q, r =>
    if q.isEmpty then true
    else likeOpt q r.title || likeOpt q r.description || likeOpt q r.article_text
  | none, _ => true

/-- The `date_published >= start_date` filter (database.py:100-102); a `NULL`
`date_published` compares to NULL and is not selected. -/
def matchStart : Option String → Row → Bool
  | some sd, r =>
    if sd.isEmpty then true
    else
      match r.date_published with
      | none => false
      | some dp => strLe sd dp
  | none, _ => true

/-- The `date_published <= end_date` filter (database.py:104-106). -/
def matchEnd : Option String → Row → Bool
  | some ed, r =>
    if ed.isEmpty then true
    else
      match r.date_published with
      | none => false
      | some dp => strLe dp ed
  | none, _ => true

/-- The full `WHERE` clause of `get_articles`: all supplied filters are
conjoined with `AND`. -/
def rowMatches (spider sq sd ed : Option String) (r : Row) : Bool :=
  matchSpider spider r && matchText sq r && matchStart sd r && matchEnd ed r

/-- `ORDER BY date_published DESC` as a Boolean comparison: larger `TEXT`
dates first; SQLite treats NULL as smaller than every value, so with `DESC`
the NULL rows come last. -/
def dpDescLeB (a b : Row) : Bool :=
  match a.date_published, b.date_published with
  | some x, some y => strLe y x
  | some _, none => true
  | none, some _ => false
  | none, none => true

/-- The `ORDER BY date_published DESC` ordering relation on rows. -/
def dpDescLe (a b : Row) : Prop := dpDescLeB a b = true

instance (a b : Row) : Decidable (dpDescLe a b) :=
  inferInstanceAs (Decidable (dpDescLeB a b = true))

instance : DecidableRel dpDescLe :=
  fun a b => inferInstanceAs (Decidable (dpDescLeB a b = true))

/-- `NewsDatabase.get_articles` (database.py:78-116):
`SELECT * FROM articles WHERE <filters> ORDER BY date_published DESC
LIMIT ? OFFSET ?`.  The embedding keeps the matching rows, arranges them in a
list sorted by `dpDescLe` (SQLite's `ORDER BY` yields some such list; the
engine's tie-breaking is unspecified), skips `offset` rows and returns at most
`limit` rows. -/
def get_articles (store : List Row) (spider sq sd ed : Option String)
    (limit offset : Nat) : List Row :=
  ((((store.filter (rowMatches spider sq sd ed)).insertionSort dpDescLe).drop
      offset).take limit)

/-- `NewsDatabase.get_unique_urls` (database.py:189-200):
`SELECT url FROM articles` with a `WHERE spider_name = ?` clause added for a
truthy `spider_name`. -/
def get_unique_urls (store : List Row) (spider : Option String) : List String :=
  match spider with
  | some n =>
    if n.isEmpty then store.map Row.url
    else (store.filter (fun r => r.spider_name == n)).map Row.url
  | none => store.map Row.url

/-- The header line of the exported CSV: the `fieldnames` taken from the keys
of the first result dict, i.e. the `articles` table columns in order
(database.py:221). -/
def csvColumns : List String :=
  ["id", "url", "title", "description", "author", "article_text",
   "date_published", "date_modified", "scrapy_scraped_at", "scrapy_parsed_at",
   "paywall", "spider_name", "created_at"]

/-- The CSV file written by `export_to_csv`: one header line followed by one
line per exported row. -/
structure CsvFile where
  header : List String
  rows : List Row
deriving DecidableEq

/-- `NewsDatabase.export_to_csv` (database.py:202-225): fetch the matching
articles with `get_articles(..., limit=1000000)`; when the result list is
non-empty, open the file and write the header plus all result rows; return
`len(articles)`.  When no article matches, the `if articles:` guard skips the
`open(...)` entirely and no file is created — modelled as `none`. -/
def export_to_csv (store : List Row) (spider sq sd ed : Option String) :
    Option CsvFile × Nat :=
  let articles := get_articles store spider sq sd ed 1000000 0
  (if articles.isEmpty then none else some ⟨csvColumns, articles⟩, articles.length)

/-- A store of 1000001 rows with pairwise-distinct urls (unary-encoded), used
to exhibit that the export truncates at the `limit=1000000` page size it
passes to `get_articles` (database.py:216). -/
def bigStore : List Row :=
  (List.range 1000001).map
    (fun i => { url := String.mk (List.replicate (i + 1) 'a'), spider_name := "src" })

/-! ## The dedup downloader middleware (news_scraper/middlewares.py) -/

/-- Outcome of `NewsScraperDownloaderMiddleware.process_request`: either the
request is suppressed by raising `IgnoreRequest`, or `None` is returned and
the fetch proceeds. -/
inductive RequestDecision
  | ignored
  | allowed
deriving DecidableEq

/-- `spider_opened` (middlewares.py:25-41): when the `SKIP_OUTPUT_URLS`
setting is true, load the snapshot `output_urls` from the database via
`get_unique_urls(spider_name=spider.name)`; otherwise the class-level default
`output_urls = []` stays in place. -/
def spider_opened (store : List Row) (skip_output_urls : Bool) (name : String) :
    List String :=
  if skip_output_urls then get_unique_urls store (some name) else []

/-- `process_request` (middlewares.py:43-49): raise `IgnoreRequest` exactly
when `request.url in self.output_urls`; otherwise return `None` so the fetch
proceeds. -/
def process_request (output_urls : List String) (url : String) : RequestDecision :=
  if url ∈ output_urls then RequestDecision.ignored else RequestDecision.allowed

/-! ## The crawl-frontier planner (news_scraper/spiders/base.py) -/

/-- Decimal digit character. -/
def digitChar (n : Nat) : Char := Char.ofNat (48 + n)

/-- `strftime("%m")` / `strftime("%d")`: two-digit zero-padded rendering
(base.py:18-21). -/
def pad2 (n : Nat) : String := String.mk [digitChar (n / 10 % 10), digitChar (n % 10)]

/-- `strftime("%Y")`: four-digit zero-padded rendering, for years below
10000. -/
def pad4 (n : Nat) : String :=
  String.mk [digitChar (n / 1000 % 10), digitChar (n / 100 % 10),
             digitChar (n / 10 % 10), digitChar (n % 10)]

/-- Replace every occurrence of `pat` by `rep` in `hay`; `fuel` bounds the
scan (the caller passes the haystack length, which suffices). -/
def replaceAux : Nat → List Char → List Char → List Char → List Char
  | 0, hay, _, _ => hay
  | fuel + 1, hay, pat, rep =>
    match hay with
    | [] => []
    | h :: t =>
      if pat.isPrefixOf (h :: t) && !pat.isEmpty then
        rep ++ replaceAux fuel (List.drop pat.length (h :: t)) pat rep
      else h :: replaceAux fuel t pat rep

/-- Replace every occurrence of `pat` by `rep` in `s`. -/
def replaceStr (s pat rep : String) : String :=
  String.mk (replaceAux s.data.length s.data pat.data rep.data)

/-- `sitemap_pattern.format(year=..., month=..., day=...)` (base.py:108-112)
with the default `sitemap_date_formatter` (`%Y`, `%m`, `%d`): substitute the
three placeholders of the pattern with the zero-padded date components. -/
def formatUrl (pattern : String) (dt : Date) : String :=
  replaceStr (replaceStr (replaceStr pattern "{year}" (pad4 dt.y))
      "{month}" (pad2 dt.m))
    "{day}" (pad2 dt.d)

/-- The inner loop of `start_requests` (base.py:107-121) for one partition
date `dt`: yield one request per `sitemap_pattern`, incrementing
`sitemaps_processed`; when `limit_sitemaps` holds and the counter reaches 3
right after a yield, `return` exits the whole generator (signalled by a
`none` continuation counter). -/
def emitPatterns (dt : Date) (limit : Bool) : List String → Nat → List String × Option Nat
  | [], count => ([], some count)
  | p :: ps, count =>
    let url := formatUrl p dt
    if limit && decide (3 ≤ count + 1) then ([url], none)
    else
      let rest := emitPatterns dt limit ps (count + 1)
      (url :: rest.1, rest.2)

/-- The outer loop of `start_requests` (base.py:106-121): iterate the
partition dates, threading the `sitemaps_processed` counter; a `none` from
the inner loop is the early `return` and stops the whole emission. -/
def emitDates (limit : Bool) (patterns : List String) : List Date → Nat → List String
  | [], _ => []
  | dt :: rest, count =>
    match emitPatterns dt limit patterns count with
    | (rs, none) => rs
    | (rs, some c) => rs ++ emitDates limit patterns rest c

/-- All requests of the unbounded double loop: one URL per partition date and
sitemap pattern, dates outermost. -/
def allRequests (patterns : List String) : List Date → List String
  | [] => []
  | dt :: rest => patterns.map (fun p => formatUrl p dt) ++ allRequests patterns rest

/-- `GROUP BY spider_name` statistics (database.py:159-165) only list spider
names that own at least one row, so the loop at base.py:74-87 runs its body
exactly when some stored row carries this spider's name. -/
def spiderHasRows (store : List Row) (name : String) : Bool :=
  store.any (fun r => r.spider_name == name)

/-- base.py:79 — `articles.empty`.  `NewsDatabase.get_articles` returns a
Python list of dicts (database.py:116), and a list has no attribute `empty`,
so this attribute lookup raises `AttributeError` at run time, whatever the
list contains. -/
def dfEmptyAttr (_articles : List Row) : Except String Bool :=
  Except.error "AttributeError: list object has no attribute empty"

/-- Parse an ISO `YYYY-MM-DD` prefix-free date string into a `Date`:
split on the dash separators. -/
def splitDash : List Char → List Char → List (List Char)
  | [], acc => [acc.reverse]
  | c :: t, acc => if c = '-' then acc.reverse :: splitDash t [] else splitDash t (c :: acc)

/-- Decimal value of one digit character. -/
def digitVal (c : Char) : Option Nat :=
  if 48 ≤ c.toNat ∧ c.toNat ≤ 57 then some (c.toNat - 48) else none

/-- Read a decimal numeral. -/
def digitsToNatAux : List Char → Nat → Option Nat
  | [], acc => some acc
  | c :: t, acc =>
    match digitVal c with
    | some v => digitsToNatAux t (acc * 10 + v)
    | none => none

/-- `pd.to_datetime` on the stored ISO `YYYY-MM-DD` date strings. -/
def parseDate (s : String) : Option Date :=
  match splitDash s.data [] with
  | [ys, ms, ds] => do
    let y ← digitsToNatAux ys 0
    let m ← digitsToNatAux ms 0
    let d ← digitsToNatAux ds 0
    pure ⟨y, m, d⟩
  | _ => none

/-- The body of the per-spider branch of the update-mode lookup
(base.py:77-86).  The first step evaluates `articles.empty` on the list
returned by `get_articles`, which raises (see `dfEmptyAttr`); the rest of the
branch — reading the newest `date_published`, `pd.to_datetime`, and
`date_range[0] = max(latest_date, date_range[0])` — is therefore unreachable,
but is kept faithful to base.py:80-82. -/
def resumeLookup (store : List Row) (name : String) (dr0 : Date) : Except String Date := do
  let articles := get_articles store (some name) none none none 1 0
  let isEmpty ← dfEmptyAttr articles
  if isEmpty then
    pure dr0
  else
    match (articles.head?.bind Row.date_published).bind parseDate with
    | some latest => pure (maxDate latest dr0)
    | none => pure dr0

/-- The effective window start computed by `start_requests` (base.py:63-89):
in `"update"` mode the code tries to clamp `date_range[0]` to the latest
stored `date_published` of this spider, but the whole attempt sits in a
`try` block whose body raises (see `resumeLookup`); the handler at
base.py:88-89 logs a warning and leaves `date_range[0]` unchanged.  In any
other mode `date_range[0]` is the configured window start. -/
def effectiveStart (scrape_mode : String) (store : List Row) (name : String)
    (dr0 : Date) : Date :=
  if scrape_mode == "update" then
    if spiderHasRows store name then
      match resumeLookup store name dr0 with
      | Except.ok d => d
      | Except.error _ => dr0
    else dr0
  else dr0

/-- Specification model (spec.md section 4.2, step 1), for comparison with
the code's `effectiveStart`: "If mode = update: look up ResumeState for
source_id; set effective_start = max(window.start, latest_seen_date).  If no
prior records exist, effective_start = window.start."  The latest seen date
is the maximum stored `date_published` of the source. -/
def latestPublished (store : List Row) (name : String) : Option String :=
  ((store.filter (fun r => r.spider_name == name)).filterMap Row.date_published).foldl
    (fun acc s =>
      match acc with
      | none => some s
      | some m => some (strMax m s)) none

/-- Specification model (spec.md section 4.2, step 1) of the resume clamp;
see `latestPublished`. -/
def effectiveStartSpec (store : List Row) (name : String) (dr0 : Date) : Date :=
  match (latestPublished store name).bind parseDate with
  | some latest => maxDate dr0 latest
  | none => dr0

/-- `SitemapIndexSpider.start_requests` (base.py:49-121) end to end: compute
the effective window start (update-mode clamp attempt), enumerate the sitemap
partition dates in descending order, and emit one request URL per date and
pattern, stopping after three when `CLOSESPIDER_ITEMCOUNT > 0`
(`limit_sitemaps`, base.py:102-103). -/
def start_requests (scrape_mode : String) (store : List Row) (name : String)
    (c : Cadence) (w0 w1 : Date) (patterns : List String)
    (itemcount_cap : Nat) : List String :=
  emitDates (decide (0 < itemcount_cap)) patterns
    (sitemapDates c (effectiveStart scrape_mode store name w0) w1) 0

/-! ## Order lemmas for dates -/

theorem dateLe_refl (a : Date) : dateLe a a := by
  unfold dateLe; omega

theorem dateLe_of_lt {a b : Date} (h : dateLt a b) : dateLe a b := by
  unfold dateLt at h; unfold dateLe; omega

theorem dateLe_trans {a b c : Date} (h1 : dateLe a b) (h2 : dateLe b c) : dateLe a c := by
  unfold dateLe at h1 h2 ⊢; omega

theorem dateLt_of_lt_of_le {a b c : Date} (h1 : dateLt a b) (h2 : dateLe b c) : dateLt a c := by
  unfold dateLt at h1 ⊢; unfold dateLe at h2; omega

theorem dateLt_next (c : Cadence) (dt : Date) : dateLt dt (nextDate c dt) := by
  cases c <;>
    simp only [nextDate, addDay, addMonth, addYear, dateLt] <;>
    (try split_ifs) <;> simp

theorem mem_dateRangeAscAux :
    ∀ (fuel : Nat) (c : Cadence) (cur stop x : Date),
      x ∈ dateRangeAscAux fuel c cur stop → dateLe cur x := by
  intro fuel
  induction fuel with
  | zero => intro c cur stop x hx; simp [dateRangeAscAux] at hx
  | succ n ih =>
    intro c cur stop x hx
    simp only [dateRangeAscAux] at hx
    split at hx
    · rcases List.mem_cons.mp hx with h | h
      · subst h; exact dateLe_refl _
      · exact dateLe_trans (dateLe_of_lt (dateLt_next c cur))
          (ih c (nextDate c cur) stop x h)
    · simp at hx

theorem pairwise_dateRangeAscAux :
    ∀ (fuel : Nat) (c : Cadence) (cur stop : Date),
      (dateRangeAscAux fuel c cur stop).Pairwise dateLt := by
  intro fuel
  induction fuel with
  | zero => intro c cur stop; simp [dateRangeAscAux]
  | succ n ih =>
    intro c cur stop
    simp only [dateRangeAscAux]
    split
    · refine List.Pairwise.cons (fun x hx => ?_) (ih c (nextDate c cur) stop)
      exact dateLt_of_lt_of_le (dateLt_next c cur)
        (mem_dateRangeAscAux n c (nextDate c cur) stop x hx)
    · exact List.Pairwise.nil

/-! ## Order lemmas for SQLite TEXT comparison -/

theorem charListLe_total :
    ∀ (as bs : List Char), charListLe as bs = true ∨ charListLe bs as = true
  | [], _ => Or.inl rfl
  | _ :: _, [] => Or.inr rfl
  | a :: as, b :: bs => by
    simp only [charListLe]
    by_cases h : a.toNat = b.toNat
    · rw [if_pos h, if_pos h.symm]
      exact charListLe_total as bs
    · rw [if_neg h, if_neg (fun e => h e.symm)]
      simp only [decide_eq_true_eq]
      omega

theorem charListLe_trans :
    ∀ (as bs cs : List Char), charListLe as bs = true → charListLe bs cs = true →
      charListLe as cs = true
  | [], _, _ => fun _ _ => rfl
  | _ :: _, [], _ => fun h _ => by simp [charListLe] at h
  | _ :: _, _ :: _, [] => fun _ h => by simp [charListLe] at h
  | a :: as, b :: bs, c :: cs => fun h1 h2 => by
    simp only [charListLe] at h1 h2 ⊢
    by_cases hab : a.toNat = b.toNat <;> by_cases hbc : b.toNat = c.toNat
    · rw [if_pos hab] at h1
      rw [if_pos hbc] at h2
      rw [if_pos (hab.trans hbc)]
      exact charListLe_trans as bs cs h1 h2
    · rw [if_pos hab] at h1
      rw [if_neg hbc] at h2
      rw [if_neg (fun e => hbc (hab ▸ e))]
      simp only [decide_eq_true_eq] at h2 ⊢
      omega
    · rw [if_neg hab] at h1
      rw [if_pos hbc] at h2
      rw [if_neg (fun e => hab (hbc ▸ e))]
      simp only [decide_eq_true_eq] at h1 ⊢
      omega
    · rw [if_neg hab] at h1
      rw [if_neg hbc] at h2
      simp only [decide_eq_true_eq] at h1 h2
      have hac : ¬ a.toNat = c.toNat := by omega
      rw [if_neg hac]
      simp only [decide_eq_true_eq]
      omega

theorem strLe_total (a b : String) : strLe a b = true ∨ strLe b a = true :=
  charListLe_total a.data b.data

theorem strLe_trans {a b c : String} (h1 : strLe a b = true) (h2 : strLe b c = true) :
    strLe a c = true :=
  charListLe_trans a.data b.data c.data h1 h2

instance : IsTotal Row dpDescLe := by
  constructor
  intro a b
  unfold dpDescLe dpDescLeB
  rcases a.date_published with _ | x <;> rcases b.date_published with _ | y <;> simp
  exact (strLe_total y x).imp id id

instance : IsTrans Row dpDescLe := by
  constructor
  intro a b c
  unfold dpDescLe dpDescLeB
  rcases a.date_published with _ | x <;> rcases b.date_published with _ | y <;>
    rcases c.date_published with _ | z <;> simp
  exact fun h1 h2 => strLe_trans h2 h1

/-! ## Emission lemmas -/

theorem emitPatterns_nolimit (dt : Date) :
    ∀ (ps : List String) (k : Nat),
      emitPatterns dt false ps k = (ps.map (fun p => formatUrl p dt), some (k + ps.length))
  | [], k => by simp [emitPatterns]
  | p :: ps, k => by
    have ih := emitPatterns_nolimit dt ps (k + 1)
    simp [emitPatterns, ih]
    omega

theorem emitPatterns_limit (dt : Date) :
    ∀ (ps : List String) (k : Nat), k < 3 →
      emitPatterns dt true ps k =
        ((ps.map (fun p => formatUrl p dt)).take (3 - k),
          if k + ps.length < 3 then some (k + ps.length) else none)
  | [], k, hk => by
    simp only [emitPatterns, List.map_nil, List.take_nil, List.length_nil, Nat.add_zero]
    rw [if_pos hk]
  | p :: ps, k, hk => by
    by_cases h3 : 3 ≤ k + 1
    · have hk2 : k = 2 := by omega
      subst hk2
      simp only [emitPatterns, List.map_cons, List.length_cons]
      rw [if_pos (by simp), if_neg (by omega)]
      have hone : 3 - 2 = 0 + 1 := by omega
      rw [hone, List.take_succ_cons, List.take_zero]
    · have h1 : k + 1 < 3 := by omega
      have ih := emitPatterns_limit dt ps (k + 1) h1
      simp only [emitPatterns, List.map_cons, List.length_cons]
      rw [if_neg (by simp [h3]), ih]
      have he : 3 - k = (3 - (k + 1)) + 1 := by omega
      rw [he, List.take_succ_cons]
      have hcount : k + 1 + ps.length = k + (ps.length + 1) := by omega
      simp [hcount]

theorem emitDates_nolimit (patterns : List String) :
    ∀ (dates : List Date) (k : Nat),
      emitDates false patterns dates k = allRequests patterns dates
  | [], _ => rfl
  | dt :: rest, k => by
    have ih := emitDates_nolimit patterns rest (k + patterns.length)
    simp [emitDates, emitPatterns_nolimit, allRequests, ih]

theorem emitDates_limit (patterns : List String) :
    ∀ (dates : List Date) (k : Nat), k < 3 →
      emitDates true patterns dates k = (allRequests patterns dates).take (3 - k)
  | [], k, _ => by simp [emitDates, allRequests]
  | dt :: rest, k, hk => by
    simp only [emitDates, allRequests]
    rw [emitPatterns_limit dt patterns k hk]
    by_cases hlt : k + patterns.length < 3
    · rw [if_pos hlt]
      have ih := emitDates_limit patterns rest (k + patterns.length) hlt
      simp only [ih, List.take_append_eq_append_take, List.length_map]
      rw [List.take_of_length_le (l := patterns.map (fun p => formatUrl p dt))
        (by simp; omega)]
      have : 3 - k - patterns.length = 3 - (k + patterns.length) := by omega
      rw [this]
    · rw [if_neg hlt]
      simp only [List.take_append_eq_append_take, List.length_map]
      have h0 : 3 - k - patterns.length = 0 := by omega
      rw [h0, List.take_zero, List.append_nil]

/-! ## Insert invariants -/

theorem insert_article_extends (s : List Row) (a : Article) (n : String) :
    s <+: (insert_article s a n).1 := by
  rcases ha : a.url with _ | u
  · simp [insert_article, ha]
  · by_cases hany : s.any (fun r => r.url == u) = true
    · simp [insert_article, ha, hany]
    · simp [insert_article, ha, hany]

theorem insert_article_keeps_nodup (s : List Row) (a : Article) (n : String)
    (h : (s.map Row.url).Nodup) : (((insert_article s a n).1).map Row.url).Nodup := by
  rcases ha : a.url with _ | u
  · simpa [insert_article, ha] using h
  · by_cases hany : s.any (fun r => r.url == u) = true
    · simpa [insert_article, ha, hany] using h
    · simp only [insert_article, ha, hany, if_false, Bool.false_eq_true,
        List.map_append, List.map_cons, List.map_nil]
      rw [List.nodup_append]
      refine ⟨h, List.nodup_singleton u, fun v hv hv1 => ?_⟩
      rcases List.mem_map.mp hv with ⟨r, hr, hru⟩
      rcases List.mem_singleton.mp hv1 with rfl
      exact hany (List.any_eq_true.mpr ⟨r, hr, by simp [hru]⟩)

theorem foldl_insert_nodup :
    ∀ (batch : List (Article × String)) (s : List Row),
      (s.map Row.url).Nodup →
        ((batch.foldl (fun st p => (insert_article st p.1 p.2).1) s).map Row.url).Nodup
  | [], s, h => h
  | p :: batch, s, h => by
    simp only [List.foldl_cons]
    exact foldl_insert_nodup batch ((insert_article s p.1 p.2).1)
      (insert_article_keeps_nodup s p.1 p.2 h)

/-! ## Claim theorems -/

/-- C1: insert is idempotent on `url`.  For every record whose url equals the
url of an already-stored row, `insert_article` leaves the stored rows
unchanged and returns `inserted = false`; moreover any sequence of inserts
starting from a store with pairwise-distinct urls keeps the urls pairwise
distinct (so no two stored rows ever share a url), and every insert leaves
all previously stored rows in place unmodified (the old store is a prefix of
the new one). -/
theorem insert_idempotent_on_url (store : List Row) (a : Article) (n u : String)
    (hu : a.url = some u) (hmem : u ∈ store.map Row.url) :
    insert_article store a n = (store, false)
    ∧ (∀ (s : List Row) (batch : List (Article × String)),
        (s.map Row.url).Nodup →
          ((batch.foldl (fun st p => (insert_article st p.1 p.2).1) s).map Row.url).Nodup)
    ∧ (∀ (s : List Row) (b : Article) (m : String), s <+: (insert_article s b m).1) := by
  refine ⟨?_, fun s batch hn => foldl_insert_nodup batch s hn,
    fun s b m => insert_article_extends s b m⟩
  rcases List.mem_map.mp hmem with ⟨r, hr, hru⟩
  have hany : store.any (fun r => r.url == u) = true :=
    List.any_eq_true.mpr ⟨r, hr, by simp [hru]⟩
  simp [insert_article, hu, hany]

/-- Witness for C1 at a concrete store and record. -/
theorem insert_idempotent_on_url_witness :
    ({ url := some "u" } : Article).url = some "u"
    ∧ "u" ∈ ([{ url := "u", spider_name := "a" }] : List Row).map Row.url
    ∧ (insert_article [{ url := "u", spider_name := "a" }] { url := some "u" } "a"
          = ([{ url := "u", spider_name := "a" }], false)
        ∧ (∀ (s : List Row) (batch : List (Article × String)),
            (s.map Row.url).Nodup →
              ((batch.foldl (fun st p => (insert_article st p.1 p.2).1) s).map
                Row.url).Nodup)
        ∧ (∀ (s : List Row) (b : Article) (m : String), s <+: (insert_article s b m).1)) :=
  ⟨rfl, by decide,
    insert_idempotent_on_url [{ url := "u", spider_name := "a" }] { url := some "u" }
      "a" "u" rfl (by decide)⟩

/-- C2: the resume clamp the spec describes is not what the code computes.
With one stored record for spider "a" whose `date_published` is
`2024-02-15`, an update-mode run with window start `2024-01-01` leaves the
effective start at `2024-01-01` (the clamp attempt raises `AttributeError`
inside the `try` block, see `resumeLookup`, and the handler keeps
`date_range[0]` unchanged), whereas the specified clamp
`max(window.start, latest stored date_published)` yields `2024-02-15`. -/
theorem resume_clamp_divergence :
    effectiveStart "update"
        [{ url := "u", date_published := some "2024-02-15", spider_name := "a" }]
        "a" ⟨2024, 1, 1⟩ = ⟨2024, 1, 1⟩
    ∧ effectiveStartSpec
        [{ url := "u", date_published := some "2024-02-15", spider_name := "a" }]
        "a" ⟨2024, 1, 1⟩ = ⟨2024, 2, 15⟩
    ∧ ((⟨2024, 1, 1⟩ : Date) ≠ ⟨2024, 2, 15⟩) := by decide

/-- C3: an inverted window emits no partition at all.  With window start
`2024-03-02` strictly past window end `2024-03-01`, `pd.date_range` is empty
and the planner yields no sitemap request — contradicting the guarantee of
at least one partition for `effective_start >= window.end`; the boundary
case of an empty window with equal endpoints does yield exactly one
partition. -/
theorem inverted_window_emits_nothing :
    sitemapDates Cadence.monthly ⟨2024, 3, 2⟩ ⟨2024, 3, 1⟩ = []
    ∧ start_requests "full" [] "s" Cadence.monthly ⟨2024, 3, 2⟩ ⟨2024, 3, 1⟩
        ["https://x/{year}/{month}/sitemap.xml"] 0 = []
    ∧ sitemapDates Cadence.monthly ⟨2024, 3, 1⟩ ⟨2024, 3, 1⟩ = [⟨2024, 3, 1⟩] := by
  decide

/-- C4: a record without a url is rejected without any write: the store is
returned unchanged and the call reports `false` instead of raising (the
`INSERT OR IGNORE` skips the row on the `NOT NULL` violation of `url`), so
the failure is never fatal to the run. -/
theorem insert_missing_url_rejected (store : List Row) (a : Article) (n : String)
    (h : a.url = none) : insert_article store a n = (store, false) := by
  simp [insert_article, h]

/-- Witness for C4 at a concrete record lacking a url. -/
theorem insert_missing_url_rejected_witness :
    ({ title := some "t" } : Article).url = none
    ∧ insert_article [{ url := "w", spider_name := "b" }] { title := some "t" } "b"
        = ([{ url := "w", spider_name := "b" }], false) :=
  ⟨rfl, insert_missing_url_rejected [{ url := "w", spider_name := "b" }]
    { title := some "t" } "b" rfl⟩

/-- C5: dedup gating.  With the snapshot loaded at spider start
(`SKIP_OUTPUT_URLS` enabled), a page request is suppressed
(`IgnoreRequest`) exactly when its url belongs to the stored known-url list
for the spider, and every url outside the snapshot is allowed to proceed. -/
theorem dedup_gating (store : List Row) (name url : String) :
    (process_request (spider_opened store true name) url = RequestDecision.ignored
      ↔ url ∈ get_unique_urls store (some name))
    ∧ (process_request (spider_opened store true name) url = RequestDecision.allowed
      ↔ url ∉ get_unique_urls store (some name)) := by
  by_cases hm : url ∈ get_unique_urls store (some name) <;>
    simp [process_request, spider_opened, hm]

/-- C6 counterexample: the text filter is not a substring match.  For a
store holding one row titled "abc", the search query "a_c" makes the
program's `LIKE '%a_c%'` treat `_` as a single-character wildcard, so
`get_articles` returns the row even though "a_c" is not a case-insensitive
substring of "abc" (second conjunct, via the spec-side substring reading). -/
theorem text_filter_wildcard_counterexample :
    get_articles [{ url := "u", title := some "abc", spider_name := "a" }]
        none (some "a_c") none none 100 0
      = [{ url := "u", title := some "abc", spider_name := "a" }]
    ∧ specSubstringMatch "a_c" "abc" = false := by decide

/-- C6 (amended): query correctness.  Every row returned by `get_articles`
is a stored row satisfying the conjunction of all supplied filters — source
equality, the SQL `LIKE '%q%'` text filter (case-insensitive for ASCII,
with `%` and `_` inside the query acting as wildcards) applied to title,
description and full text with OR semantics, and the date-range bounds —
and the returned list is ordered by `date_published` descending with NULL
dates last. -/
theorem get_articles_filter_and_order (store : List Row) (spider sq sd ed : Option String)
    (limit offset : Nat) :
    (∀ r ∈ get_articles store spider sq sd ed limit offset,
        r ∈ store ∧ rowMatches spider sq sd ed r = true)
    ∧ (get_articles store spider sq sd ed limit offset).Pairwise dpDescLe := by
  have hs : (get_articles store spider sq sd ed limit offset).Sublist
      ((store.filter (rowMatches spider sq sd ed)).insertionSort dpDescLe) :=
    (List.take_sublist _ _).trans (List.drop_sublist _ _)
  constructor
  · intro r hr
    have h2 : r ∈ store.filter (rowMatches spider sq sd ed) :=
      (List.perm_insertionSort dpDescLe _).subset (hs.subset hr)
    exact ⟨(List.mem_filter.mp h2).1, (List.mem_filter.mp h2).2⟩
  · exact List.Pairwise.sublist hs (List.sorted_insertionSort dpDescLe _)

/-- C7: frontier ordering.  For every cadence and window the planner's
partition dates are strictly descending (most recent first); concretely, the
window 2024-01-01 .. 2024-03-01 at monthly cadence yields March 1, then
February 1, then January 1. -/
theorem frontier_descending_order :
    (∀ (c : Cadence) (s e : Date),
        (sitemapDates c s e).Pairwise (fun a b => dateLt b a))
    ∧ sitemapDates Cadence.monthly ⟨2024, 1, 1⟩ ⟨2024, 3, 1⟩
        = [⟨2024, 3, 1⟩, ⟨2024, 2, 1⟩, ⟨2024, 1, 1⟩] := by
  constructor
  · intro c s e
    unfold sitemapDates
    exact List.pairwise_reverse.mpr (pairwise_dateRangeAscAux _ c s e)
  · decide

set_option maxRecDepth 8000 in
/-- C8 counterexamples, one per failure mode of the claim.  (i) When no
stored record matches the filters the export writes no file at all and
returns 0 — not a file with a header row and zero data rows (store of one
row for spider "a", exported with source filter "x").  (ii) When 1000001
stored records match, the `limit=1000000` the exporter passes to
`get_articles` truncates the result and the call returns 1000000, not N;
the exhibited store has pairwise-distinct urls (last conjunct), so it is a
legitimate table state. -/
theorem export_claim_counterexamples :
    export_to_csv [{ url := "u", spider_name := "a" }] (some "x") none none none
        = (none, 0)
    ∧ (bigStore.filter (rowMatches none none none none)).length = 1000001
    ∧ (export_to_csv bigStore none none none none).2 = 1000000
    ∧ (bigStore.map Row.url).Nodup := by
  have hfe : bigStore.filter (rowMatches none none none none) = bigStore :=
    List.filter_eq_self.mpr (fun r _ => rfl)
  have hblen : bigStore.length = 1000001 := by
    simp [bigStore]
  have hsnd : ∀ (st : List Row) (a b c d : Option String),
      (export_to_csv st a b c d).2 = (get_articles st a b c d 1000000 0).length :=
    fun _ _ _ _ _ => rfl
  refine ⟨by decide, ?_, ?_, ?_⟩
  · exact (congrArg List.length hfe).trans hblen
  · rw [hsnd bigStore none none none none]
    unfold get_articles
    rw [List.drop_zero, List.length_take,
      (List.perm_insertionSort dpDescLe _).length_eq, hfe, hblen]
    decide
  · simp only [bigStore, List.map_map]
    refine List.Nodup.map ?_ (List.nodup_range _)
    intro a b h
    have h3 : List.replicate (a + 1) 'a' = List.replicate (b + 1) 'a' := by
      simpa using congrArg String.data h
    have h4 := congrArg List.length h3
    simp only [List.length_replicate] at h4
    omega

/-- C8 (amended): when `N ≥ 1` records match the filters (and at most
1000000 do — the `limit` the exporter passes to `get_articles`), the export
writes a file with exactly one header row plus `N` data rows, the data rows
are exactly the matching records, and the call returns `N`. -/
theorem export_writes_header_and_matching_rows (store : List Row)
    (spider sq sd ed : Option String) (N : Nat)
    (hN : (store.filter (rowMatches spider sq sd ed)).length = N)
    (hpos : 0 < N) (hcap : N ≤ 1000000) :
    ∃ f : CsvFile,
      export_to_csv store spider sq sd ed = (some f, N)
      ∧ f.header = csvColumns
      ∧ f.rows.length = N
      ∧ f.rows.Perm (store.filter (rowMatches spider sq sd ed)) := by
  have hperm := List.perm_insertionSort dpDescLe (store.filter (rowMatches spider sq sd ed))
  have hlen : ((store.filter (rowMatches spider sq sd ed)).insertionSort dpDescLe).length
      = N := by
    rw [hperm.length_eq, hN]
  have hget : get_articles store spider sq sd ed 1000000 0
      = (store.filter (rowMatches spider sq sd ed)).insertionSort dpDescLe := by
    unfold get_articles
    rw [List.drop_zero, List.take_of_length_le (by omega)]
  refine ⟨⟨csvColumns,
      (store.filter (rowMatches spider sq sd ed)).insertionSort dpDescLe⟩, ?_, rfl,
    hlen, hperm⟩
  unfold export_to_csv
  rw [hget]
  have hne : ¬ (((store.filter (rowMatches spider sq sd ed)).insertionSort
      dpDescLe).isEmpty = true) := by
    intro he
    rw [List.isEmpty_iff.mp he] at hlen
    simp at hlen
    omega
  simp only [if_neg hne, hlen]

/-- Witness for the amended C8 at a one-row store with no filters. -/
theorem export_writes_header_and_matching_rows_witness :
    (([{ url := "u", date_published := some "2024-02-15", spider_name := "a" }] :
        List Row).filter (rowMatches none none none none)).length = 1
    ∧ 0 < 1
    ∧ 1 ≤ 1000000
    ∧ ∃ f : CsvFile,
        export_to_csv
            [{ url := "u", date_published := some "2024-02-15", spider_name := "a" }]
            none none none none = (some f, 1)
        ∧ f.header = csvColumns
        ∧ f.rows.length = 1
        ∧ f.rows.Perm
            (([{ url := "u", date_published := some "2024-02-15", spider_name := "a" }] :
              List Row).filter (rowMatches none none none none)) :=
  ⟨by decide, by decide, by decide,
    export_writes_header_and_matching_rows
      [{ url := "u", date_published := some "2024-02-15", spider_name := "a" }]
      none none none none 1 (by decide) (by decide) (by decide)⟩

/-- C9: bounded-run policy.  Whenever an item-count cap above zero is
configured, the emitted request sequence is exactly the first three requests
of the unbounded sequence: the planner stops after emitting three and never
produces a fourth. -/
theorem bounded_run_policy (scrape_mode : String) (store : List Row) (name : String)
    (c : Cadence) (w0 w1 : Date) (patterns : List String) (cap : Nat) (h : 0 < cap) :
    start_requests scrape_mode store name c w0 w1 patterns cap
      = (start_requests scrape_mode store name c w0 w1 patterns 0).take 3
    ∧ (start_requests scrape_mode store name c w0 w1 patterns cap).length ≤ 3 := by
  have hd : decide (0 < cap) = true := decide_eq_true h
  unfold start_requests
  rw [hd]
  have h0 : decide (0 < 0) = false := rfl
  rw [h0]
  rw [emitDates_limit patterns _ 0 (by omega), emitDates_nolimit patterns _ 0]
  constructor
  · rfl
  · rw [List.length_take]
    omega

/-- Witness for C9 at a concrete capped run over a six-month window. -/
theorem bounded_run_policy_witness :
    0 < 1
    ∧ (start_requests "full" [] "s" Cadence.monthly ⟨2024, 1, 1⟩ ⟨2024, 6, 1⟩
          ["https://x/{year}/{month}/sitemap.xml"] 1
        = (start_requests "full" [] "s" Cadence.monthly ⟨2024, 1, 1⟩ ⟨2024, 6, 1⟩
            ["https://x/{year}/{month}/sitemap.xml"] 0).take 3
      ∧ (start_requests "full" [] "s" Cadence.monthly ⟨2024, 1, 1⟩ ⟨2024, 6, 1⟩
          ["https://x/{year}/{month}/sitemap.xml"] 1).length ≤ 3) :=
  ⟨by decide,
    bounded_run_policy "full" [] "s" Cadence.monthly ⟨2024, 1, 1⟩ ⟨2024, 6, 1⟩
      ["https://x/{year}/{month}/sitemap.xml"] 1 (by decide)⟩

/-- C10: when zero stored records match the export filters, `export_to_csv`
returns 0 and writes no output file at all — the `if articles:` guard skips
the `open(...)`, so not even a header-only file is created. -/
theorem export_zero_matches_no_file (store : List Row) (spider sq sd ed : Option String)
    (h : store.filter (rowMatches spider sq sd ed) = []) :
    export_to_csv store spider sq sd ed = (none, 0) := by
  unfold export_to_csv get_articles
  rw [h]
  rfl

/-- Witness for C10 at the empty store. -/
theorem export_zero_matches_no_file_witness :
    ([] : List Row).filter (rowMatches none none none none) = []
    ∧ export_to_csv [] none none none none = (none, 0) :=
  ⟨rfl, export_zero_matches_no_file [] none none none none rfl⟩

end NewsScraper
